import Mathlib

/-!
Verification development for the balena-airthingswave repository.

The repository schedules two periodic tasks (device discovery over BLE and
sensor reading with MQTT publishing).  The scheduling and orchestration logic
lives in src/wave/app.py (class Task and class App); the decoding of WavePlus
sensor payloads lives in src/airthingswave-mqtt/airthingswave.py.

Times and intervals are Python floats in the source; they are modelled here as
rationals, which is exact for all the arithmetic the program performs on them
(sums, differences, min).  Sensor decoding divides integers by 2, 100 and 50;
at the concrete values considered here those divisions are exact in binary
floating point as well, so the rational model agrees with the source.

Logging calls are modelled only where a claim mentions them (the discovery
diff log); log-level gating is modelled as fully enabled.
-/

/-- One decoded sample: a mapping from sensor name to numeric value.
Modelled from the spec: the Sample protocol lives in src/wave/protocols.py,
which is not part of the provided sources; the spec describes it as an
immutable mapping from sensor-name to numeric value, publishable as a
structured JSON-like document. -/
def Sample : Type := List (String × ℚ)

deriving instance DecidableEq for Sample

deriving instance DecidableEq for Except

/-- A Wave device handle: display name and BLE address.
Modelled from the spec: the Wave device class used by the orchestrator lives
in src/wave/device.py, which is not part of the provided sources.  The
companion class in src/airthingswave-mqtt/airthingswave.py carries the same
name and addr fields. -/
structure Wave where
  name : String
  addr : String
deriving DecidableEq, Repr

/-- Modelled from the spec: the device identity is the serial number slash
address; src/wave/app.py publishes to topics built from serial_number. -/
def Wave.serial_number (w : Wave) : String := w.addr

/-- Modelled from the spec: Wave equality is by identity (address), used to
diff device sets across discovery cycles (src/wave/device.py is not under the
provided sources). -/
def Wave.waveEq (a b : Wave) : Bool := a.addr == b.addr

/-- Modelled from the spec: Wave hashing is by the same identity key (the
address), so devices that compare equal hash equal. -/
def Wave.waveHash (a : Wave) : String := a.addr

/-- Python set membership for Wave, under the by-address equality. -/
def waveMem (d : Wave) (l : List Wave) : Bool := l.any fun x => x.addr == d.addr

/-- Python set difference for Wave sets represented as duplicate-free lists. -/
def waveSetDiff (a b : List Wave) : List Wave := a.filter fun d => !(waveMem d b)

/-- Helper for waveDedup: drops elements whose address was already seen. -/
def waveDedupAux : List Wave → List Wave → List Wave
  | _, [] => []
  | seen, d :: rest =>
    if waveMem d seen then waveDedupAux seen rest
    else d :: waveDedupAux (d :: seen) rest

/-- The python set constructor applied to a list of Wave devices: keeps the
first occurrence of each address.  (CPython set iteration order is
unspecified; first-occurrence order is a concrete choice.  No claim below
depends on the order, only on the underlying set.) -/
def waveDedup (l : List Wave) : List Wave := waveDedupAux [] l

/-- Seconds in a minute, from src/wave/app.py line 13. -/
def S_MIN : ℚ := 60

/-- Seconds in an hour, from src/wave/app.py line 14. -/
def S_HOUR : ℚ := 60 * S_MIN

namespace WaveApp

/-- A scheduled task, from src/wave/app.py class Task: a name, a fixed run
interval in seconds, and the private next-run timestamp, None until the task
has been run or asked for its next run time.  The wrapped zero-argument
action and the logging are not part of the scheduling state: run catches
every exception from the action, so scheduling is unconditional. -/
structure Task where
  name : String
  run_interval : ℚ
  next_run_at : Option ℚ
deriving DecidableEq, Repr

/-- Task.__schedule_next_run from src/wave/app.py lines 59-60. -/
def Task.schedule_next_run (tk : Task) (t : ℚ) : Task :=
  { tk with next_run_at := some (t + tk.run_interval) }

/-- Task.__is_past_next_run from src/wave/app.py lines 62-69, with the time
argument always passed explicitly (the source substitutes time.time() for
None). -/
def Task.is_past_next_run (tk : Task) (t : ℚ) : Bool :=
  match tk.next_run_at with
  | none => true
  | some r => decide (t ≥ r)

/-- Task.run from src/wave/app.py lines 41-57: the action runs with every
exception caught and logged, then the next run is scheduled from the wall
clock time observed after the action finished.  That completion time is the
explicit argument here. -/
def Task.run (tk : Task) (completion_time : ℚ) : Task :=
  tk.schedule_next_run completion_time

/-- Task.maybe_run from src/wave/app.py lines 71-73.  Returns the updated
task and whether the action ran, so the caller can observe run order. -/
def Task.maybe_run (tk : Task) (now completion_time : ℚ) : Task × Bool :=
  if tk.is_past_next_run now then (tk.run completion_time, true) else (tk, false)

/-- Task.get_next_run from src/wave/app.py lines 75-79: if the task is past
its next run (or has never been scheduled), reschedules from now as a side
effect; returns the (possibly just set) next run time together with the
updated task. -/
def Task.get_next_run (tk : Task) (now : ℚ) : Task × ℚ :=
  let tk' := if tk.is_past_next_run now then tk.schedule_next_run now else tk
  (tk', tk'.next_run_at.getD 0)

/-- A JSON-like publish payload: either a sample document or the error object
built by error_payload in src/wave/app.py lines 220-224. -/
inductive Payload where
  | sampleJson (s : Sample)
  | errorJson (error : String) (message : String)
deriving DecidableEq

/-- error_payload from src/wave/app.py lines 220-224: the JSON object with an
error field and a message field. -/
def error_payload (error_type : String) (message : String) : Payload :=
  .errorJson error_type message

/-- One MQTT publish call as issued by mqtt_helper.publish_json_message:
topic, payload, and the qos and retain arguments when passed explicitly at
the call site (none means the library default was used). -/
structure PublishMsg where
  topic : String
  payload : Payload
  qos : Option Nat
  retain : Option Bool
deriving DecidableEq

/-- The outcome of one bounded-time device read in the loop body of
App.__read, src/wave/app.py lines 125-132: the read returned a sample, or
raised TimeoutError, or raised some other exception. -/
inductive ReadResult where
  | ok (s : Sample)
  | timeout
  | failure
deriving DecidableEq

/-- The per-device try/except of App.__read lines 125-132: sample starts as
None, is assigned on success, and both except branches only log, leaving
sample as None. -/
def read_attempt : ReadResult → Option Sample
  | .ok s => some s
  | .timeout => none
  | .failure => none

namespace App

/-- App.__publish_samples from src/wave/app.py lines 98-115: one publish per
(device, optional sample) pair, in list order.  A present sample goes to the
sample topic as JSON with qos=1 and retain=True; an absent one goes to the
error topic with the connection-failed payload and library-default qos and
retain. -/
def publish_samples (samples : List (Wave × Option Sample)) : List PublishMsg :=
  samples.map fun cs =>
    match cs.2 with
    | some sample =>
        { topic := "wave/" ++ cs.1.serial_number ++ "/sample"
          payload := .sampleJson sample
          qos := some 1
          retain := some true }
    | none =>
        { topic := "wave/" ++ cs.1.serial_number ++ "/error"
          payload := error_payload "connection-failed" "Failed to connect to wave device"
          qos := none
          retain := none }

/-- App.__read from src/wave/app.py lines 117-136.  The state is the
self._devices list; wait_result is the device list that
self.__wait_until_discover leaves in self._devices when it is invoked, and
outcome gives each read attempt's result.  Faithful to the source, the local
variable devices is bound to the old list object before the wait, and the
wait rebinds self._devices to a fresh list, so the read loop iterates the
list captured at entry.  Returns the final self._devices and the publishes
issued. -/
def read (self_devices : List Wave) (wait_result : List Wave)
    (outcome : Wave → ReadResult) : List Wave × List PublishMsg :=
  let devices := self_devices
  let self_devices' := if devices.isEmpty then wait_result else self_devices
  let samples := devices.map fun device => (device, read_attempt (outcome device))
  (self_devices', publish_samples samples)

/-- The device-set diff computed by App.__log_discovery, src/wave/app.py
lines 138-148, with logging fully enabled: added is the scan result minus
the previous devices, removed is the previous devices minus the scan
result. -/
structure DiscoveryLog where
  added : List Wave
  removed : List Wave
deriving DecidableEq

/-- App.__log_discovery from src/wave/app.py lines 138-148 (log levels
enabled): computes the added and removed device sets relative to the
previous list. -/
def log_discovery (prev_devices devices : List Wave) : DiscoveryLog :=
  { added := waveSetDiff devices prev_devices
    removed := waveSetDiff prev_devices devices }

/-- App.__discover from src/wave/app.py lines 150-159.  scan_result is what
finder.scan() did: raised (error) or returned a device list.  On a raise the
exception propagates before any of the body after line 152 runs.  Otherwise
the scan result is deduplicated into a set; the diff is logged only when the
set is non-empty; and, unconditionally, self._devices is replaced by the
list of that set.  Returns the log (if produced) and the new device list. -/
def discover (scan_result : Except Unit (List Wave)) (self_devices : List Wave) :
    Except Unit (Option DiscoveryLog × List Wave) :=
  match scan_result with
  | .error e => .error e
  | .ok scanned =>
      let devices := waveDedup scanned
      let log := if devices.isEmpty then none
                 else some (log_discovery self_devices devices)
      .ok (log, devices)

/-- App.__discover as a transformer of the self._devices field: when the
scan raises, the exception propagates and the assignment on line 159 is
never reached, so the field keeps its previous value. -/
def discover_st (scan_result : Except Unit (List Wave)) (self_devices : List Wave) :
    Except Unit (Option DiscoveryLog) × List Wave :=
  match discover scan_result self_devices with
  | .error e => (.error e, self_devices)
  | .ok (log, devices) => (.ok log, devices)

/-- The while-True loop of App.__wait_until_discover, src/wave/app.py lines
161-182, driven by the finite list of scan outcomes the successive
finder.scan() calls produce; max_fail_streak is 3 in the source.  Result
.error means the third consecutive failure was re-raised; .ok (some ds)
means the loop broke with the non-empty device list ds; .ok none means the
supplied outcomes were exhausted with the loop still running. -/
def wait_loop : List (Except Unit (List Wave)) → Nat → List Wave →
    Except Unit (Option (List Wave))
  | [], _, _ => .ok none
  | s :: rest, fail_streak, devices =>
    match discover_st s devices with
    | (.error e, devices') =>
        let fs := fail_streak + 1
        if 3 ≤ fs then .error e
        else if devices'.isEmpty then wait_loop rest fs devices'
        else .ok (some devices')
    | (.ok _, devices') =>
        if devices'.isEmpty then wait_loop rest 0 devices'
        else .ok (some devices')

/-- App.__wait_until_discover entry point: fail_streak starts at 0. -/
def wait_until_discover (scans : List (Except Unit (List Wave)))
    (devices : List Wave) : Except Unit (Option (List Wave)) :=
  wait_loop scans 0 devices

/-- The read task constructed in App.__init__, src/wave/app.py line 93:
interval 30 minutes, name Read Wave, never run. -/
def init_read_task : Task := ⟨"Read Wave", 30 * S_MIN, none⟩

/-- The discovery task constructed in App.__init__, src/wave/app.py line 94:
interval 24 hours, name Discovery, never run. -/
def init_discover_task : Task := ⟨"Discovery", 24 * S_HOUR, none⟩

/-- The two tasks owned by the orchestrator. -/
structure Tasks where
  read_task : Task
  discover_task : Task
deriving DecidableEq, Repr

/-- The task state right after App.__init__. -/
def init_tasks : Tasks := ⟨init_read_task, init_discover_task⟩

/-- App.__run_tasks from src/wave/app.py lines 184-186: maybe_run the
discovery task, then maybe_run the read task.  Runs are modelled as
instantaneous at time now; the returned list records which task actions ran,
in execution order. -/
def run_tasks (st : Tasks) (now : ℚ) : Tasks × List String :=
  let d := st.discover_task.maybe_run now now
  let r := st.read_task.maybe_run now now
  (⟨r.1, d.1⟩,
    (if d.2 then [st.discover_task.name] else []) ++
      (if r.2 then [st.read_task.name] else []))

/-- One iteration of the while-True loop in App.__update_loop, src/wave/app.py
lines 195-202, up to the sleep: now is sampled, both get_next_run calls run
(mutating the tasks), and the sleep time is their minimum minus now. -/
def loop_iter (st : Tasks) (now : ℚ) : Tasks × ℚ :=
  let r := st.read_task.get_next_run now
  let d := st.discover_task.get_next_run now
  (⟨r.1, d.1⟩, min r.2 d.2 - now)

end App

end WaveApp

/-- WavePlus.get_readings from src/airthingswave-mqtt/airthingswave.py lines
88-104, after struct.unpack has produced the eight integer fields from the
raw characteristic: the returned mapping scales humidity by half, temperature
by one hundredth, pressure by one fiftieth, and leaves the radon fields as
raw integers. -/
def WavePlus.get_readings (humidity light sh_rad lo_rad temp pressure co2 voc : ℤ) :
    List (String × ℚ) :=
  [("humidity", (humidity : ℚ) / 2),
   ("light", (light : ℚ) * 1),
   ("radon_short", (sh_rad : ℚ)),
   ("radon_long", (lo_rad : ℚ)),
   ("temperature", (temp : ℚ) / 100),
   ("pressure", (pressure : ℚ) / 50),
   ("co2", (co2 : ℚ) * 1),
   ("voc", (voc : ℚ) * 1)]

open WaveApp

/-- C1: claimed, read() on an empty device list runs the discovery backoff
and then reads and publishes the devices it discovered in that same cycle.
The code evaluated at the failing input: the local alias of the empty device
list is captured before the wait, so after the wait stores wait_result in
self._devices, the per-device pass still iterates the stale empty list and
publishes nothing. -/
theorem C1_read_ignores_devices_found_by_wait (wait_result : List Wave)
    (outcome : Wave → ReadResult) :
    App.read [] wait_result outcome = (wait_result, []) := rfl

/-- C2 counterexample: with previous device list [X], a successful scan that
finds the empty set does not retain [X]; the assignment on line 159 of app.py
is unconditional and clears the list. -/
theorem C2_discover_empty_scan_clears_cex :
    (App.discover_st (.ok []) [⟨"X", "aa"⟩]).2 = [] ∧
    ([] : List Wave) ≠ [⟨"X", "aa"⟩] := by decide

/-- C2 amended: after any successful scan, empty or not, discover() replaces
the device list wholesale with the scan result; in particular an empty scan
clears the previous list rather than retaining it. -/
theorem C2_discover_replaces_list_unconditionally (scanned prev : List Wave) :
    (App.discover_st (.ok scanned) prev).2 = waveDedup scanned ∧
    (App.discover_st (.ok []) prev).2 = [] := by
  constructor
  · simp [App.discover_st, App.discover]
  · rfl

/-- C3: in the wait-until-discovered loop started with an empty device list,
a scan failure is re-raised exactly on the third consecutive failing
discover() call and never on the first or second; a non-raising discover()
call (even one finding zero devices) resets the failure counter; and the
fail, fail, success, fail, fail pattern never aborts. -/
theorem C3_wait_fail_streak_semantics :
    (∀ rest, App.wait_loop (.error () :: .error () :: .error () :: rest) 0 [] =
      .error ()) ∧
    App.wait_loop [.error (), .error ()] 0 [] = .ok none ∧
    (∀ ds rest fs, App.wait_loop (.ok ds :: rest) fs [] =
      if (waveDedup ds).isEmpty then App.wait_loop rest 0 []
      else .ok (some (waveDedup ds))) ∧
    App.wait_loop [.error (), .error (), .ok [], .error (), .error ()] 0 [] =
      .ok none := by
  refine ⟨?_, by decide, ?_, by decide⟩
  · intro rest
    simp [App.wait_loop, App.discover_st, App.discover]
  · intro ds rest fs
    by_cases h : (waveDedup ds).isEmpty
    · have h' : waveDedup ds = [] := by
        simpa [List.isEmpty_iff] using h
      simp [App.wait_loop, App.discover_st, App.discover, h, h']
    · simp [App.wait_loop, App.discover_st, App.discover, h]

/-- C4: every read cycle issues exactly one publish per device, in device
list order: a retained QoS-1 JSON message on the sample topic when the read
produced a sample, and the connection-failed error message on the error
topic when it timed out or raised; no device is skipped. -/
theorem C4_one_publish_per_device_in_order (devices wait_result : List Wave)
    (outcome : Wave → ReadResult) (i : Nat) :
    ((App.read devices wait_result outcome).2).length = devices.length ∧
    ((App.read devices wait_result outcome).2)[i]? = Option.map (fun d =>
      match outcome d with
      | .ok s =>
          { topic := "wave/" ++ d.serial_number ++ "/sample"
            payload := .sampleJson s
            qos := some 1
            retain := some true }
      | .timeout =>
          { topic := "wave/" ++ d.serial_number ++ "/error"
            payload := .errorJson "connection-failed" "Failed to connect to wave device"
            qos := none
            retain := none }
      | .failure =>
          { topic := "wave/" ++ d.serial_number ++ "/error"
            payload := .errorJson "connection-failed" "Failed to connect to wave device"
            qos := none
            retain := none }) devices[i]? := by
  constructor
  · simp [App.read, App.publish_samples]
  · simp only [App.read, App.publish_samples, List.map_map, List.getElem?_map]
    cases devices[i]? with
    | none => rfl
    | some d =>
        simp only [Option.map_some', Function.comp_apply]
        cases h : outcome d <;> simp [h, read_attempt, error_payload]

/-- C5: Wave devices compare equal exactly when their addresses are equal
(and then hash equal), and under that identity the scan sequence
first-scan-result X,Y then second-scan-result Y,Z leaves the device list
exactly Y,Z with Z logged as the only addition and X as the only removal;
Y appears in neither log. -/
theorem C5_identity_eq_and_set_diff :
    (∀ a b : Wave, (Wave.waveEq a b = true ↔ a.addr = b.addr) ∧
      (Wave.waveEq a b = true → Wave.waveHash a = Wave.waveHash b)) ∧
    App.discover (.ok [⟨"Y", "bb"⟩, ⟨"Z", "cc"⟩]) [⟨"X", "aa"⟩, ⟨"Y", "bb"⟩] =
      .ok (some ⟨[⟨"Z", "cc"⟩], [⟨"X", "aa"⟩]⟩, [⟨"Y", "bb"⟩, ⟨"Z", "cc"⟩]) := by
  refine ⟨fun a b => ⟨?_, ?_⟩, by decide⟩
  · simp [Wave.waveEq]
  · intro h
    have : a.addr = b.addr := by simpa [Wave.waveEq] using h
    simp [Wave.waveHash, this]

/-- C5 witness: two devices sharing the address aa compare equal and hash
equal. -/
theorem C5_identity_witness :
    Wave.waveEq ⟨"A", "aa"⟩ ⟨"B", "aa"⟩ = true ∧
    Wave.waveHash ⟨"A", "aa"⟩ = Wave.waveHash ⟨"B", "aa"⟩ :=
  ⟨by decide,
    (C5_identity_eq_and_set_diff.1 ⟨"A", "aa"⟩ ⟨"B", "aa"⟩).2 (by decide)⟩

/-- C6: for every interval I greater than 0, a fresh Task with next-due
unset is due at every time now (including now = 0, see the witness); after
run() completes at time T, next-due equals T + I, and the task is due at now
exactly when now is at least T + I. -/
theorem C6_task_due_semantics (nm : String) (I T now : ℚ) (hI : 0 < I) :
    (Task.mk nm I none).is_past_next_run now = true ∧
    ((Task.mk nm I none).run T).next_run_at = some (T + I) ∧
    (((Task.mk nm I none).run T).is_past_next_run now = true ↔ T + I ≤ now) := by
  refine ⟨rfl, rfl, ?_⟩
  simp [Task.is_past_next_run, Task.run, Task.schedule_next_run, ge_iff_le]

/-- C6 witness: instantiated at interval 5, run completion time 7 and
now = 0; a fresh task is due even at time 0. -/
theorem C6_task_due_semantics_witness :
    (0 : ℚ) < 5 ∧
    ((Task.mk "t" 5 none).is_past_next_run 0 = true ∧
      ((Task.mk "t" 5 none).run 7).next_run_at = some (7 + 5) ∧
      (((Task.mk "t" 5 none).run 7).is_past_next_run 0 = true ↔ (7 : ℚ) + 5 ≤ 0)) :=
  ⟨by norm_num, C6_task_due_semantics "t" 5 7 0 (by norm_num)⟩

/-- C7 counterexample: with next-due set to 100 and interval 10, two
get_next_run calls with no intervening run, at now = 100 and then now = 120,
return 110 and then 130: get_next_run is not idempotent once next-due is
set, because a call that finds the task overdue reschedules it from now. -/
theorem C7_get_next_run_not_idempotent_cex :
    ((Task.mk "t" (10 : ℚ) (some 100)).get_next_run 100).2 = 110 ∧
    (((Task.mk "t" (10 : ℚ) (some 100)).get_next_run 100).1.get_next_run 120).2 = 130 ∧
    (110 : ℚ) ≠ 130 := by
  have e1 : (Task.mk "t" (10 : ℚ) (some 100)).get_next_run 100 =
      (Task.mk "t" (10 : ℚ) (some 110), 110) := by
    norm_num [Task.get_next_run, Task.is_past_next_run, Task.schedule_next_run]
  have e2 : (Task.mk "t" (10 : ℚ) (some 110)).get_next_run 120 =
      (Task.mk "t" (10 : ℚ) (some 130), 130) := by
    norm_num [Task.get_next_run, Task.is_past_next_run, Task.schedule_next_run]
  refine ⟨by rw [e1], ?_, by norm_num⟩
  rw [e1]
  simp [e2]

/-- C7 amended: when next-due is unset, get_next_run(now) sets it to
now + interval as a side effect and returns that value; and for a task with
positive interval, two get_next_run calls with the same now and no
intervening run return the same value both times. -/
theorem C7_get_next_run_set_and_same_now_idempotent (nm : String) (I now : ℚ)
    (tk : Task) (ht : 0 < tk.run_interval) :
    ((Task.mk nm I none).get_next_run now).2 = now + I ∧
    ((Task.mk nm I none).get_next_run now).1.next_run_at = some (now + I) ∧
    ((tk.get_next_run now).1.get_next_run now).2 = (tk.get_next_run now).2 := by
  refine ⟨rfl, rfl, ?_⟩
  by_cases h : tk.is_past_next_run now = true
  · have e1 : tk.get_next_run now =
        (tk.schedule_next_run now, now + tk.run_interval) := by
      simp [Task.get_next_run, h, Task.schedule_next_run]
    have hip2 : (tk.schedule_next_run now).is_past_next_run now = false := by
      simp only [Task.schedule_next_run, Task.is_past_next_run, ge_iff_le,
        decide_eq_false_iff_not, not_le]
      linarith
    rw [e1]
    simp [Task.get_next_run, hip2, Task.schedule_next_run]
  · have h' : tk.is_past_next_run now = false := by
      rwa [Bool.not_eq_true] at h
    have e1 : tk.get_next_run now = (tk, tk.next_run_at.getD 0) := by
      simp [Task.get_next_run, h']
    rw [e1]
    simp [Task.get_next_run, h']

/-- C7 witness: instantiated at a fresh task with interval 10 asked at
now = 4, and a task with interval 10 and next-due 100 asked twice at
now = 4. -/
theorem C7_get_next_run_witness :
    (0 : ℚ) < 10 ∧
    (((Task.mk "t" (10 : ℚ) none).get_next_run 4).2 = 4 + 10 ∧
      ((Task.mk "t" (10 : ℚ) none).get_next_run 4).1.next_run_at = some (4 + 10) ∧
      (((Task.mk "t" (10 : ℚ) (some 100)).get_next_run 4).1.get_next_run 4).2 =
        ((Task.mk "t" (10 : ℚ) (some 100)).get_next_run 4).2) :=
  ⟨by norm_num,
    C7_get_next_run_set_and_same_now_idempotent "t" 10 4 ⟨"t", 10, some 100⟩ (by norm_num)⟩

/-- C8: at startup both tasks run once unconditionally with the discovery
task strictly before the read task; with read interval 1800 seconds and
discover interval 86400 seconds and both tasks never run, after the initial
run at time 0 the first loop iteration computes a sleep of 1800 seconds as
the minimum of the two next-due times minus now. -/
theorem C8_startup_order_and_first_sleep :
    (App.run_tasks App.init_tasks 0).2 = ["Discovery", "Read Wave"] ∧
    App.init_read_task.run_interval = 1800 ∧
    App.init_discover_task.run_interval = 86400 ∧
    (App.loop_iter (App.run_tasks App.init_tasks 0).1 0).2 = 1800 := by
  refine ⟨rfl, ?_, ?_, ?_⟩
  · norm_num [App.init_read_task, S_MIN]
  · norm_num [App.init_discover_task, S_HOUR, S_MIN]
  · norm_num [App.loop_iter, App.run_tasks, App.init_tasks, App.init_read_task,
      App.init_discover_task, Task.maybe_run, Task.run, Task.schedule_next_run,
      Task.is_past_next_run, Task.get_next_run, S_MIN, S_HOUR, min_def]

/-- C9: the WavePlus decode at raw fields humidity 40, light 10,
radon_short 20, radon_long 15, temp 2350, pressure 50250, co2 600, voc 150
yields humidity 20.0, light 10.0, radon_short 20, radon_long 15,
temperature 23.5, pressure 1005.0, co2 600.0 and voc 150.0. -/
theorem C9_waveplus_decode_example :
    WavePlus.get_readings 40 10 20 15 2350 50250 600 150 =
      [("humidity", 20), ("light", 10), ("radon_short", 20), ("radon_long", 15),
       ("temperature", 23.5), ("pressure", 1005), ("co2", 600), ("voc", 150)] := by
  norm_num [WavePlus.get_readings]

/-- C10: when the scan raises, discover() propagates the exception and the
device list is exactly what it was before the call, since the replacement
assignment is never reached; an empty-but-successful scan, in contrast,
does reach the assignment (and stores the empty list). -/
theorem C10_discover_failure_is_atomic (devices : List Wave) :
    App.discover_st (.error ()) devices = (.error (), devices) ∧
    App.discover (.error ()) devices = .error () ∧
    (App.discover_st (.ok []) devices).2 = [] :=
  ⟨rfl, rfl, rfl⟩
